import Mathlib

/-!
Verification of the credential and verification state machine of the
password authentication system (`password-authentication-system.py`).

The Python class `PasswordAuthenticator` is embedded shallowly:

* the JSON user database becomes an association list `Store` from usernames
  to `UserRecord`s; `find`/`setUser` model dictionary lookup and item assignment,
  and the store returned by each flow models the state after `save_database`;
* wall-clock time becomes a `Nat` measured in minutes (the code stores
  `locked_until` as a formatted timestamp and compares parsed datetimes with
  `<`; only the ordering and the `+ 15 minutes` arithmetic matter here);
* bcrypt hashing and checking are abstracted as explicit function parameters
  (`hashFn : String → String`, `cpw : String → String → Bool`), since the
  hash primitive is an opaque external capability;
* the random 6-digit verification code produced by `send_verification_code`
  is passed in as a parameter `code`, and each flow additionally reports the
  list `sent` of e-mail destinations to which a code was issued;
* interactive `input()` streams become `List String`; a flow that would
  block forever waiting for input that never comes returns `none`.
-/

def max_failed_attempts : Nat := 5

def lockout_duration : Nat := 15

/-- One entry of the user database, mirroring the JSON object created at
registration: `password_hash`, `email`, `failed_attempts`, `locked_until`,
`registered_on`. -/
structure UserRecord where
  password_hash : String
  email : String
  failed_attempts : Nat
  locked_until : Option Nat
  registered_on : Nat
deriving Repr, DecidableEq

abbrev Store := List (String × UserRecord)

/-- Dictionary lookup `self.database.get(username)`. -/
def find : Store → String → Option UserRecord
  | [], _ => none
  | (k, v) :: rest, u => if k = u then some v else find rest u

/-- Dictionary assignment `self.database[username] = record` (replace the
existing binding, or append a new one). -/
def setUser : Store → String → UserRecord → Store
  | [], u, r => [(u, r)]
  | (k, v) :: rest, u, r => if k = u then (u, r) :: rest else (k, v) :: setUser rest u r

/-- `re.search(r'[A-Z]', password)`: some character is an ASCII uppercase
letter. -/
def hasUppercase (s : String) : Bool := s.data.any Char.isUpper

/-- `re.search(r'[a-z]', password)`: some character is an ASCII lowercase
letter. -/
def hasLowercase (s : String) : Bool := s.data.any Char.isLower

/-- `re.search(r'[0-9]', password)`: some character is an ASCII digit. -/
def hasDigit (s : String) : Bool := s.data.any Char.isDigit

inductive PasswordValidation where
  | Ok
  | TooShort
  | MissingUppercase
  | MissingLowercase
  | MissingDigit
deriving Repr, DecidableEq

/-- The password composition checks of `register_user` (lines 91-102) and
`reset_password` (lines 326-337), in the order the code tests them. -/
def validate (password : String) : PasswordValidation :=
  if password.length < 8 then .TooShort
  else if ¬ hasUppercase password then .MissingUppercase
  else if ¬ hasLowercase password then .MissingLowercase
  else if ¬ hasDigit password then .MissingDigit
  else .Ok

/-- Character class `[a-zA-Z0-9._]` of the username pattern. -/
def validUsernameChar (c : Char) : Bool :=
  c.isAlpha || c.isDigit || c = '.' || c = '_'

/-- Character class `\w` (ASCII reading: letters, digits, underscore). -/
def wordChar (c : Char) : Bool := c.isAlpha || c.isDigit || c = '_'

/-- Character class `[\w\.-]` of the e-mail pattern. -/
def emailChar (c : Char) : Bool := wordChar c || c = '.' || c = '-'

/-- `re.match(r'^[\w\.-]+@[\w\.-]+\.\w+$', email)`: one `@` separating a
nonempty local part from a domain that ends in a dot followed by a nonempty
word-character run, with a nonempty `[\w\.-]+` part before that last dot. -/
def validEmail (s : String) : Bool :=
  match s.data.splitOn '@' with
  | [loc, dom] =>
    decide (0 < loc.length) && loc.all emailChar &&
    (let rev := dom.reverse
     let tld := rev.takeWhile (fun c => ¬ c = '.')
     decide (tld.length < rev.length) && decide (0 < tld.length) &&
       tld.all wordChar &&
       (let pre := rev.drop (tld.length + 1)
        decide (0 < pre.length) && pre.all emailChar))
  | _ => false

/-- The username prompt loop of `register_user` (lines 43-54): keep reading
candidates until one has length at least 4, matches `^[a-zA-Z0-9._]+$` and is
not already taken; `none` when the input stream runs dry. -/
def usernameLoop (db : Store) : List String → Option (String × List String)
  | [] => none
  | u :: rest =>
    if 4 ≤ u.length ∧ u.data.all validUsernameChar ∧ find db u = none then
      some (u, rest)
    else usernameLoop db rest

/-- Outcome of the bounded verification-code attempt loop. -/
inductive CodeCheck where
  | matched (rest : List String)
  | failed
  | noInput
deriving Repr, DecidableEq

/-- `for attempt in range(n): user_code = input(); if user_code == code:
break/succeed` — consume up to `n` inputs; the first exact match succeeds,
exhausting the budget fails. -/
def checkCodeAttempts (code : String) : List String → Nat → CodeCheck
  | _, 0 => .failed
  | [], _ + 1 => .noInput
  | u :: rest, n + 1 =>
    if u = code then .matched rest else checkCodeAttempts code rest n

/-- Outcome of the e-mail prompt loop of `register_user`. -/
inductive EmailPhase where
  | ok (email : String) (rest : List String)
  | verifyFailed (email : String)
  | noInput
deriving Repr, DecidableEq

/-- The e-mail loop of `register_user` (lines 57-86): read addresses until
one matches the e-mail pattern, send a verification code to it, then give the
user 3 attempts to echo the code; all 3 wrong aborts the whole registration
(`verifyFailed`), a match breaks out of the loop with the verified address. -/
def emailLoop (code : String) : List String → EmailPhase
  | [] => .noInput
  | e :: rest =>
    if validEmail e then
      match checkCodeAttempts code rest 3 with
      | .matched rest2 => .ok e rest2
      | .failed => .verifyFailed e
      | .noInput => .noInput
    else emailLoop code rest

/-- The password prompt loop of `register_user` (lines 89-108) and
`reset_password` (lines 324-343): read a candidate password; if any
composition rule fails, re-prompt; otherwise read a confirmation; a mismatch
re-prompts from the password. Returns the accepted password. -/
def passwordLoop : List String → Option String
  | [] => none
  | [_] => none
  | p :: c :: rest =>
    if validate p = PasswordValidation.Ok then
      if p = c then some p else passwordLoop rest
    else passwordLoop (c :: rest)

/-- Result of one flow invocation: the boolean the Python method returns, the
user database after the last `save_database`, and the destinations to which a
verification code was sent during the flow. -/
structure FlowOut where
  result : Bool
  db : Store
  sent : List String
deriving Repr, DecidableEq

/-- `check_account_lockout` (lines 127-144): false for an unknown user; for a
set `locked_until` in the future, true; for a set but elapsed `locked_until`,
reset `failed_attempts` to 0, clear `locked_until`, save, and return false. -/
def check_account_lockout (db : Store) (username : String) (now : Nat) :
    Bool × Store :=
  match find db username with
  | none => (false, db)
  | some user_data =>
    match user_data.locked_until with
    | none => (false, db)
    | some lock_time =>
      if now < lock_time then (true, db)
      else
        (false,
          setUser db username
            { user_data with failed_attempts := 0, locked_until := none })

/-- The failed-password bookkeeping of `authenticate` (lines 264-270):
increment `failed_attempts`; once the result reaches `max_failed_attempts`,
set `locked_until = now + lockout_duration`. -/
def record_failure (r : UserRecord) (now : Nat) : UserRecord :=
  let fa := r.failed_attempts + 1
  if max_failed_attempts ≤ fa then
    { r with failed_attempts := fa, locked_until := some (now + lockout_duration) }
  else
    { r with failed_attempts := fa }

/-- A sequence of recorded failures at the given times. -/
def applyFailures (r : UserRecord) (times : List Nat) : UserRecord :=
  times.foldl record_failure r

/-- `authenticate` (lines 239-297): reject an unknown username; reject a
locked account (the lockout check may lazily clear an expired lock); check
the password, recording a failure (and possibly locking) on mismatch;
on match reset `failed_attempts` to 0, save, send a 2FA code to the stored
e-mail and allow 3 attempts to echo it. -/
def authenticate (cpw : String → String → Bool) (db : Store) (now : Nat)
    (username password code : String) (attempts : List String) :
    Option FlowOut :=
  match find db username with
  | none => some ⟨false, db, []⟩
  | some _ =>
    if (check_account_lockout db username now).1 then
      some ⟨false, (check_account_lockout db username now).2, []⟩
    else
      match find (check_account_lockout db username now).2 username with
      | none => some ⟨false, (check_account_lockout db username now).2, []⟩
      | some user_data =>
        if cpw password user_data.password_hash = false then
          some ⟨false,
            setUser (check_account_lockout db username now).2 username
              (record_failure user_data now), []⟩
        else
          match checkCodeAttempts code attempts 3 with
          | .matched _ =>
            some ⟨true,
              setUser (check_account_lockout db username now).2 username
                { user_data with failed_attempts := 0 }, [user_data.email]⟩
          | .failed =>
            some ⟨false,
              setUser (check_account_lockout db username now).2 username
                { user_data with failed_attempts := 0 }, [user_data.email]⟩
          | .noInput => none

/-- `register_user` (lines 38-125): collect a fresh well-formed username,
then an e-mail address verified by a 3-attempt code challenge (failure aborts
with no record written), then a policy-satisfying confirmed password; hash it
and persist a fresh record with `failed_attempts = 0`, `locked_until = None`. -/
def register_user (hashFn : String → String) (db : Store) (now : Nat)
    (code : String) (inputs : List String) : Option FlowOut :=
  match usernameLoop db inputs with
  | none => none
  | some (username, rest) =>
    match emailLoop code rest with
    | .noInput => none
    | .verifyFailed email => some ⟨false, db, [email]⟩
    | .ok email rest2 =>
      match passwordLoop rest2 with
      | none => none
      | some p =>
        some ⟨true,
          setUser db username
            ⟨hashFn p, email, 0, none, now⟩, [email]⟩

/-- `reset_password` (lines 299-354): reject an unknown username; reject a
locked account before any code is sent; send a code to the stored e-mail and
read a single attempt — any mismatch fails the flow; on match collect a
policy-satisfying confirmed new password, replace `password_hash`, zero
`failed_attempts`, clear `locked_until`, and save. -/
def reset_password (hashFn : String → String) (db : Store) (now : Nat)
    (username code userCode : String) (pwInputs : List String) :
    Option FlowOut :=
  match find db username with
  | none => some ⟨false, db, []⟩
  | some _ =>
    if (check_account_lockout db username now).1 then
      some ⟨false, (check_account_lockout db username now).2, []⟩
    else
      match find (check_account_lockout db username now).2 username with
      | none => some ⟨false, (check_account_lockout db username now).2, []⟩
      | some user_data =>
        if userCode = code then
          match passwordLoop pwInputs with
          | none => none
          | some p =>
            some ⟨true,
              setUser (check_account_lockout db username now).2 username
                { user_data with
                    password_hash := hashFn p,
                    failed_attempts := 0,
                    locked_until := none }, [user_data.email]⟩
        else some ⟨false, (check_account_lockout db username now).2,
          [user_data.email]⟩

/-- `populate_demo_users` (lines 356-386): on an empty database insert the
two demo accounts with fresh counters; otherwise leave the database alone. -/
def populate_demo_users (h1 h2 : String) (now : Nat) (db : Store) : Store :=
  if db.isEmpty then
    setUser (setUser db "user1" ⟨h1, "user1@example.com", 0, none, now⟩)
      "admin" ⟨h2, "admin@example.com", 0, none, now⟩
  else db

/-- The per-record lockout invariant the code actually maintains: while
`locked_until` is absent the counter is below the threshold, and whenever
`locked_until` is set the counter sits exactly at the threshold 5. -/
def RecordInv (r : UserRecord) : Prop :=
  (r.locked_until = none → r.failed_attempts ≤ 4) ∧
  (∀ t, r.locked_until = some t → r.failed_attempts = 5)

/-- Every record of the store satisfies `RecordInv`. -/
def StoreInv (db : Store) : Prop :=
  ∀ u r, find db u = some r → RecordInv r

/-- Stores reachable from the empty database by the system's operations:
registration, authentication, password reset (under any hash/check functions,
times, codes and input streams), and demo-user population. -/
inductive Reachable : Store → Prop where
  | init : Reachable []
  | register (db : Store) (hashFn : String → String) (now : Nat)
      (code : String) (inputs : List String) (out : FlowOut) :
      Reachable db → register_user hashFn db now code inputs = some out →
      Reachable out.db
  | auth (db : Store) (cpw : String → String → Bool) (now : Nat)
      (username password code : String) (attempts : List String)
      (out : FlowOut) :
      Reachable db → authenticate cpw db now username password code attempts = some out →
      Reachable out.db
  | reset (db : Store) (hashFn : String → String) (now : Nat)
      (username code userCode : String) (pwInputs : List String)
      (out : FlowOut) :
      Reachable db → reset_password hashFn db now username code userCode pwInputs = some out →
      Reachable out.db
  | demo (db : Store) (h1 h2 : String) (now : Nat) :
      Reachable db → Reachable (populate_demo_users h1 h2 now db)


/-! ### Store lemmas -/

theorem find_setUser_self (db : Store) (u : String) (r : UserRecord) :
    find (setUser db u r) u = some r := by
  induction db with
  | nil => simp [setUser, find]
  | cons kv rest ih =>
    obtain ⟨k, v⟩ := kv
    by_cases h : k = u
    · simp [setUser, find, h]
    · simp [setUser, find, h, ih]

theorem find_setUser_ne (db : Store) (u v : String) (r : UserRecord)
    (h : ¬ v = u) : find (setUser db u r) v = find db v := by
  induction db with
  | nil =>
    simp only [setUser, find]
    rw [if_neg (fun hh => h hh.symm)]
  | cons kv rest ih =>
    obtain ⟨k, w⟩ := kv
    by_cases hk : k = u
    · subst hk
      simp only [setUser, if_pos rfl, find]
      rw [if_neg (fun hh => h hh.symm), if_neg (fun hh => h hh.symm)]
    · by_cases hv : k = v
      · subst hv
        simp [setUser, find, hk]
      · simp [setUser, find, hk, hv, ih]

theorem setUser_setUser (db : Store) (u : String) (a b : UserRecord) :
    setUser (setUser db u a) u b = setUser db u b := by
  induction db with
  | nil => simp [setUser]
  | cons kv rest ih =>
    obtain ⟨k, v⟩ := kv
    by_cases h : k = u
    · simp [setUser, h]
    · simp [setUser, h, ih]

/-! ### Lockout-check lemmas -/

theorem check_unknown (db : Store) (u : String) (now : Nat)
    (h : find db u = none) :
    check_account_lockout db u now = (false, db) := by
  simp [check_account_lockout, h]

theorem check_unlocked (db : Store) (u : String) (now : Nat) (r : UserRecord)
    (h : find db u = some r) (hl : r.locked_until = none) :
    check_account_lockout db u now = (false, db) := by
  simp [check_account_lockout, h, hl]

theorem check_locked (db : Store) (u : String) (now t : Nat) (r : UserRecord)
    (h : find db u = some r) (hl : r.locked_until = some t) (ht : now < t) :
    check_account_lockout db u now = (true, db) := by
  simp [check_account_lockout, h, hl, ht]

theorem check_expired (db : Store) (u : String) (now t : Nat) (r : UserRecord)
    (h : find db u = some r) (hl : r.locked_until = some t) (ht : ¬ now < t) :
    check_account_lockout db u now =
      (false, setUser db u { r with failed_attempts := 0, locked_until := none }) := by
  simp [check_account_lockout, h, hl, ht]

theorem check_false_found (db : Store) (u : String) (now : Nat)
    (r : UserRecord) (h : find db u = some r)
    (hc : (check_account_lockout db u now).1 = false) :
    ∃ r', find (check_account_lockout db u now).2 u = some r' ∧
      r'.locked_until = none ∧ r'.password_hash = r.password_hash ∧
      r'.email = r.email ∧
      (r.locked_until = none → r' = r) := by
  match hl : r.locked_until with
  | none =>
    rw [check_unlocked db u now r h hl]
    exact ⟨r, h, hl, rfl, rfl, fun _ => rfl⟩
  | some t =>
    by_cases ht : now < t
    · rw [check_locked db u now t r h hl ht] at hc
      simp at hc
    · rw [check_expired db u now t r h hl ht]
      refine ⟨{ r with failed_attempts := 0, locked_until := none },
        find_setUser_self db u _, rfl, rfl, rfl, ?_⟩
      intro hn
      simp at hn

/-! ### Verification-code attempt lemmas -/

theorem checkCode_three_fail (code a b c : String) (rest : List String)
    (ha : ¬ a = code) (hb : ¬ b = code) (hc : ¬ c = code) :
    checkCodeAttempts code (a :: b :: c :: rest) 3 = .failed := by
  simp [checkCodeAttempts, ha, hb, hc]

theorem checkCode_match_within (code : String) (pre rest : List String)
    (hlen : pre.length ≤ 2) (hwrong : ∀ x ∈ pre, ¬ x = code) :
    checkCodeAttempts code (pre ++ code :: rest) 3 = .matched rest := by
  rcases pre with _ | ⟨a, _ | ⟨b, _ | ⟨c, pre⟩⟩⟩
  · simp [checkCodeAttempts]
  · have ha := hwrong a (by simp)
    simp [checkCodeAttempts, ha]
  · have ha := hwrong a (by simp)
    have hb := hwrong b (by simp)
    simp [checkCodeAttempts, ha, hb]
  · simp at hlen

/-! ### Authentication-flow lemmas -/

theorem auth_unknown (cpw : String → String → Bool) (db : Store) (now : Nat)
    (u pw code : String) (att : List String) (h : find db u = none) :
    authenticate cpw db now u pw code att = some ⟨false, db, []⟩ := by
  simp [authenticate, h]

theorem auth_locked (cpw : String → String → Bool) (db : Store) (now : Nat)
    (u pw code : String) (att : List String) (r : UserRecord) (t : Nat)
    (h : find db u = some r) (hl : r.locked_until = some t) (ht : now < t) :
    authenticate cpw db now u pw code att = some ⟨false, db, []⟩ := by
  simp [authenticate, h, check_locked db u now t r h hl ht]

theorem auth_badpw (cpw : String → String → Bool) (db : Store) (now : Nat)
    (u pw code : String) (att : List String) (r : UserRecord)
    (h : find db u = some r) (hl : r.locked_until = none)
    (hp : cpw pw r.password_hash = false) :
    authenticate cpw db now u pw code att =
      some ⟨false, setUser db u (record_failure r now), []⟩ := by
  simp [authenticate, h, check_unlocked db u now r h hl, hp]

theorem auth_goodpw_allwrong (cpw : String → String → Bool) (db : Store)
    (now : Nat) (u pw code a b c : String) (rest : List String)
    (r : UserRecord) (h : find db u = some r) (hl : r.locked_until = none)
    (hp : cpw pw r.password_hash = true)
    (ha : ¬ a = code) (hb : ¬ b = code) (hc : ¬ c = code) :
    authenticate cpw db now u pw code (a :: b :: c :: rest) =
      some ⟨false, setUser db u { r with failed_attempts := 0 }, [r.email]⟩ := by
  simp [authenticate, h, check_unlocked db u now r h hl, hp,
    checkCode_three_fail code a b c rest ha hb hc]

theorem auth_goodpw_match (cpw : String → String → Bool) (db : Store)
    (now : Nat) (u pw code : String) (pre rest : List String)
    (r : UserRecord) (h : find db u = some r) (hl : r.locked_until = none)
    (hp : cpw pw r.password_hash = true)
    (hlen : pre.length ≤ 2) (hwrong : ∀ x ∈ pre, ¬ x = code) :
    authenticate cpw db now u pw code (pre ++ code :: rest) =
      some ⟨true, setUser db u { r with failed_attempts := 0 }, [r.email]⟩ := by
  simp [authenticate, h, check_unlocked db u now r h hl, hp,
    checkCode_match_within code pre rest hlen hwrong]

theorem auth_goodpw_db (cpw : String → String → Bool) (db : Store)
    (now : Nat) (u pw code : String) (att : List String) (out : FlowOut)
    (r : UserRecord) (h : find db u = some r) (hl : r.locked_until = none)
    (hp : cpw pw r.password_hash = true)
    (heq : authenticate cpw db now u pw code att = some out) :
    out.db = setUser db u { r with failed_attempts := 0 } := by
  simp [authenticate, h, check_unlocked db u now r h hl, hp] at heq
  cases hcc : checkCodeAttempts code att 3 with
  | matched rest => rw [hcc] at heq; simp at heq; rw [← heq]
  | failed => rw [hcc] at heq; simp at heq; rw [← heq]
  | noInput => rw [hcc] at heq; simp at heq

/-! ### Password-reset lemmas -/

theorem reset_unknown (hashFn : String → String) (db : Store) (now : Nat)
    (u code userCode : String) (pwInputs : List String)
    (h : find db u = none) :
    reset_password hashFn db now u code userCode pwInputs =
      some ⟨false, db, []⟩ := by
  simp [reset_password, h]

theorem reset_locked (hashFn : String → String) (db : Store) (now : Nat)
    (u code userCode : String) (pwInputs : List String) (r : UserRecord)
    (t : Nat) (h : find db u = some r) (hl : r.locked_until = some t)
    (ht : now < t) :
    reset_password hashFn db now u code userCode pwInputs =
      some ⟨false, db, []⟩ := by
  simp [reset_password, h, check_locked db u now t r h hl ht]

theorem reset_wrongcode (hashFn : String → String) (db : Store) (now : Nat)
    (u code userCode : String) (pwInputs : List String) (r : UserRecord)
    (h : find db u = some r) (hl : r.locked_until = none)
    (hne : ¬ userCode = code) :
    reset_password hashFn db now u code userCode pwInputs =
      some ⟨false, db, [r.email]⟩ := by
  simp [reset_password, h, check_unlocked db u now r h hl, hne]

theorem reset_success (hashFn : String → String) (db : Store) (now : Nat)
    (u code userCode : String) (pwInputs : List String) (r : UserRecord)
    (p : String) (h : find db u = some r) (hl : r.locked_until = none)
    (hcode : userCode = code) (hpw : passwordLoop pwInputs = some p) :
    reset_password hashFn db now u code userCode pwInputs =
      some ⟨true,
        setUser db u
          { r with
              password_hash := hashFn p,
              failed_attempts := 0,
              locked_until := none }, [r.email]⟩ := by
  simp [reset_password, h, check_unlocked db u now r h hl, hcode, hpw]

theorem reset_success_expired (hashFn : String → String) (db : Store)
    (now : Nat) (u code userCode : String) (pwInputs : List String)
    (r : UserRecord) (p : String) (t : Nat) (h : find db u = some r)
    (hl : r.locked_until = some t) (ht : ¬ now < t)
    (hcode : userCode = code) (hpw : passwordLoop pwInputs = some p) :
    reset_password hashFn db now u code userCode pwInputs =
      some ⟨true,
        setUser db u
          { r with
              password_hash := hashFn p,
              failed_attempts := 0,
              locked_until := none }, [r.email]⟩ := by
  simp [reset_password, h, check_expired db u now t r h hl ht,
    find_setUser_self, hcode, hpw, setUser_setUser]

/-! ### Registration-flow lemmas -/

theorem register_verifyfail (hashFn : String → String) (db : Store)
    (now : Nat) (code username email a b c : String) (rest : List String)
    (hu : 4 ≤ username.length) (huc : username.data.all validUsernameChar = true)
    (hfind : find db username = none) (he : validEmail email = true)
    (ha : ¬ a = code) (hb : ¬ b = code) (hc : ¬ c = code) :
    register_user hashFn db now code
        (username :: email :: a :: b :: c :: rest) =
      some ⟨false, db, [email]⟩ := by
  simp [register_user, usernameLoop, hu, huc, hfind, emailLoop, he,
    checkCode_three_fail code a b c rest ha hb hc]

theorem register_matched (hashFn : String → String) (db : Store)
    (now : Nat) (code username email p : String) (pre rest2 : List String)
    (hu : 4 ≤ username.length) (huc : username.data.all validUsernameChar = true)
    (hfind : find db username = none) (he : validEmail email = true)
    (hlen : pre.length ≤ 2) (hwrong : ∀ x ∈ pre, ¬ x = code)
    (hpw : passwordLoop rest2 = some p) :
    register_user hashFn db now code
        (username :: email :: (pre ++ code :: rest2)) =
      some ⟨true, setUser db username ⟨hashFn p, email, 0, none, now⟩,
        [email]⟩ := by
  simp [register_user, usernameLoop, hu, huc, hfind, emailLoop, he,
    checkCode_match_within code pre rest2 hlen hwrong, hpw]


theorem register_eq (hashFn : String → String) (db : Store) (now : Nat)
    (code : String) (inputs : List String) (username : String)
    (rest : List String)
    (hu : usernameLoop db inputs = some (username, rest)) :
    register_user hashFn db now code inputs =
      match emailLoop code rest with
      | .noInput => none
      | .verifyFailed email => some ⟨false, db, [email]⟩
      | .ok email rest2 =>
        match passwordLoop rest2 with
        | none => none
        | some p =>
          some ⟨true, setUser db username ⟨hashFn p, email, 0, none, now⟩,
            [email]⟩ := by
  simp [register_user, hu]

theorem register_db_cases (hashFn : String → String) (db : Store)
    (now : Nat) (code : String) (inputs : List String) (out : FlowOut)
    (heq : register_user hashFn db now code inputs = some out) :
    out.db = db ∨
      ∃ u e p, out.db = setUser db u ⟨hashFn p, e, 0, none, now⟩ := by
  cases hu : usernameLoop db inputs with
  | none => rw [register_user, hu] at heq; cases heq
  | some pr =>
    obtain ⟨username, rest⟩ := pr
    rw [register_eq hashFn db now code inputs username rest hu] at heq
    cases he : emailLoop code rest with
    | noInput => rw [he] at heq; cases heq
    | verifyFailed email =>
      rw [he] at heq
      cases Option.some.inj heq
      left
      rfl
    | ok email rest2 =>
      rw [he] at heq
      simp only [] at heq
      cases hp : passwordLoop rest2 with
      | none => rw [hp] at heq; cases heq
      | some p =>
        rw [hp] at heq
        cases Option.some.inj heq
        right
        exact ⟨username, email, p, rfl⟩

/-! ### Invariant preservation -/

theorem recordinv_fresh (h e : String) (now : Nat) :
    RecordInv ⟨h, e, 0, none, now⟩ := by
  constructor
  · intro _
    show (0 : Nat) ≤ 4
    omega
  · intro t ht
    cases ht

theorem recordinv_cleared (r : UserRecord) :
    RecordInv { r with failed_attempts := 0, locked_until := none } := by
  constructor
  · intro _
    show (0 : Nat) ≤ 4
    omega
  · intro t ht
    cases ht

theorem recordinv_success (r : UserRecord) (hl : r.locked_until = none) :
    RecordInv { r with failed_attempts := 0 } := by
  constructor
  · intro _
    show (0 : Nat) ≤ 4
    omega
  · intro t ht
    have ht' : r.locked_until = some t := ht
    rw [hl] at ht'
    cases ht'

theorem recordinv_failure (r : UserRecord) (now : Nat)
    (hl : r.locked_until = none) (hfa : r.failed_attempts ≤ 4) :
    RecordInv (record_failure r now) := by
  simp only [record_failure]
  by_cases h5 : max_failed_attempts ≤ r.failed_attempts + 1
  · rw [if_pos h5]
    have h5' : 5 ≤ r.failed_attempts + 1 := h5
    constructor
    · intro hn
      cases hn
    · intro t _
      show r.failed_attempts + 1 = 5
      omega
  · rw [if_neg h5]
    have h5' : ¬ 5 ≤ r.failed_attempts + 1 := h5
    constructor
    · intro _
      show r.failed_attempts + 1 ≤ 4
      omega
    · intro t ht
      have ht' : r.locked_until = some t := ht
      rw [hl] at ht'
      cases ht'

theorem StoreInv_setUser (db : Store) (u : String) (r : UserRecord)
    (hinv : StoreInv db) (hr : RecordInv r) : StoreInv (setUser db u r) := by
  intro v r' hf
  by_cases hv : v = u
  · subst hv
    rw [find_setUser_self] at hf
    cases hf
    exact hr
  · rw [find_setUser_ne db u v r hv] at hf
    exact hinv v r' hf

theorem check_inv (db : Store) (u : String) (now : Nat)
    (hinv : StoreInv db) : StoreInv (check_account_lockout db u now).2 := by
  cases hf : find db u with
  | none => rw [check_unknown db u now hf]; exact hinv
  | some r =>
    cases hl : r.locked_until with
    | none => rw [check_unlocked db u now r hf hl]; exact hinv
    | some t =>
      by_cases ht : now < t
      · rw [check_locked db u now t r hf hl ht]; exact hinv
      · rw [check_expired db u now t r hf hl ht]
        exact StoreInv_setUser db u _ hinv (recordinv_cleared r)

theorem auth_checkfalse (cpw : String → String → Bool) (db : Store)
    (now : Nat) (u pw code : String) (att : List String) (r ud : UserRecord)
    (hf : find db u = some r)
    (hc : (check_account_lockout db u now).1 = false)
    (hf2 : find (check_account_lockout db u now).2 u = some ud) :
    authenticate cpw db now u pw code att =
      if cpw pw ud.password_hash = false then
        some ⟨false,
          setUser (check_account_lockout db u now).2 u
            (record_failure ud now), []⟩
      else
        match checkCodeAttempts code att 3 with
        | .matched _ =>
          some ⟨true,
            setUser (check_account_lockout db u now).2 u
              { ud with failed_attempts := 0 }, [ud.email]⟩
        | .failed =>
          some ⟨false,
            setUser (check_account_lockout db u now).2 u
              { ud with failed_attempts := 0 }, [ud.email]⟩
        | .noInput => none := by
  simp [authenticate, hf, hc, hf2]

theorem auth_inv (cpw : String → String → Bool) (db : Store) (now : Nat)
    (u pw code : String) (att : List String) (out : FlowOut)
    (hinv : StoreInv db)
    (heq : authenticate cpw db now u pw code att = some out) :
    StoreInv out.db := by
  have hchkinv := check_inv db u now hinv
  cases hf : find db u with
  | none =>
    rw [auth_unknown cpw db now u pw code att hf] at heq
    cases Option.some.inj heq
    exact hinv
  | some r =>
    cases hc : (check_account_lockout db u now).1 with
    | true =>
      rw [authenticate] at heq
      rw [hf] at heq
      simp only [] at heq
      rw [hc] at heq
      simp only [if_pos] at heq
      cases Option.some.inj heq
      exact hchkinv
    | false =>
      cases hf2 : find (check_account_lockout db u now).2 u with
      | none =>
        rw [authenticate] at heq
        rw [hf] at heq
        simp only [] at heq
        rw [hc] at heq
        simp only [Bool.false_eq_true, if_false] at heq
        rw [hf2] at heq
        simp only [] at heq
        cases Option.some.inj heq
        exact hchkinv
      | some ud =>
        rw [auth_checkfalse cpw db now u pw code att r ud hf hc hf2] at heq
        have hud : ud.locked_until = none := by
          obtain ⟨r', hr', hl', _, _, _⟩ := check_false_found db u now r hf hc
          rw [hf2] at hr'
          cases Option.some.inj hr'
          exact hl'
        have hud4 : ud.failed_attempts ≤ 4 := (hchkinv u ud hf2).1 hud
        by_cases hp : cpw pw ud.password_hash = false
        · rw [if_pos hp] at heq
          cases Option.some.inj heq
          exact StoreInv_setUser _ u _ hchkinv (recordinv_failure ud now hud hud4)
        · rw [if_neg hp] at heq
          cases hcc : checkCodeAttempts code att 3 with
          | matched rest =>
            rw [hcc] at heq
            simp only [] at heq
            cases Option.some.inj heq
            exact StoreInv_setUser _ u _ hchkinv (recordinv_success ud hud)
          | failed =>
            rw [hcc] at heq
            simp only [] at heq
            cases Option.some.inj heq
            exact StoreInv_setUser _ u _ hchkinv (recordinv_success ud hud)
          | noInput =>
            rw [hcc] at heq
            cases heq

theorem register_inv (hashFn : String → String) (db : Store) (now : Nat)
    (code : String) (inputs : List String) (out : FlowOut)
    (hinv : StoreInv db)
    (heq : register_user hashFn db now code inputs = some out) :
    StoreInv out.db := by
  rcases register_db_cases hashFn db now code inputs out heq with h | ⟨u, e, p, h⟩
  · rw [h]; exact hinv
  · rw [h]
    exact StoreInv_setUser db u _ hinv (recordinv_fresh (hashFn p) e now)

theorem reset_checkfalse (hashFn : String → String) (db : Store) (now : Nat)
    (u code userCode : String) (pwInputs : List String) (r ud : UserRecord)
    (hf : find db u = some r)
    (hc : (check_account_lockout db u now).1 = false)
    (hf2 : find (check_account_lockout db u now).2 u = some ud) :
    reset_password hashFn db now u code userCode pwInputs =
      if userCode = code then
        match passwordLoop pwInputs with
        | none => none
        | some p =>
          some ⟨true,
            setUser (check_account_lockout db u now).2 u
              { ud with
                  password_hash := hashFn p,
                  failed_attempts := 0,
                  locked_until := none }, [ud.email]⟩
      else
        some ⟨false, (check_account_lockout db u now).2, [ud.email]⟩ := by
  simp [reset_password, hf, hc, hf2]

theorem reset_inv (hashFn : String → String) (db : Store) (now : Nat)
    (u code userCode : String) (pwInputs : List String) (out : FlowOut)
    (hinv : StoreInv db)
    (heq : reset_password hashFn db now u code userCode pwInputs = some out) :
    StoreInv out.db := by
  have hchkinv := check_inv db u now hinv
  cases hf : find db u with
  | none =>
    rw [reset_unknown hashFn db now u code userCode pwInputs hf] at heq
    cases Option.some.inj heq
    exact hinv
  | some r =>
    cases hc : (check_account_lockout db u now).1 with
    | true =>
      rw [reset_password] at heq
      rw [hf] at heq
      simp only [] at heq
      rw [hc] at heq
      simp only [if_pos] at heq
      cases Option.some.inj heq
      exact hchkinv
    | false =>
      cases hf2 : find (check_account_lockout db u now).2 u with
      | none =>
        rw [reset_password] at heq
        rw [hf] at heq
        simp only [] at heq
        rw [hc] at heq
        simp only [Bool.false_eq_true, if_false] at heq
        rw [hf2] at heq
        simp only [] at heq
        cases Option.some.inj heq
        exact hchkinv
      | some ud =>
        rw [reset_checkfalse hashFn db now u code userCode pwInputs r ud hf hc hf2] at heq
        by_cases hcode : userCode = code
        · rw [if_pos hcode] at heq
          cases hp : passwordLoop pwInputs with
          | none => rw [hp] at heq; cases heq
          | some p =>
            rw [hp] at heq
            simp only [] at heq
            cases Option.some.inj heq
            refine StoreInv_setUser _ u _ hchkinv ?_
            constructor
            · intro _
              show (0 : Nat) ≤ 4
              omega
            · intro t ht
              cases ht
        · rw [if_neg hcode] at heq
          cases Option.some.inj heq
          exact hchkinv

theorem demo_inv (h1 h2 : String) (now : Nat) (db : Store)
    (hinv : StoreInv db) : StoreInv (populate_demo_users h1 h2 now db) := by
  rw [populate_demo_users]
  by_cases he : db.isEmpty
  · rw [if_pos he]
    exact StoreInv_setUser _ _ _
      (StoreInv_setUser _ _ _ hinv (recordinv_fresh h1 "user1@example.com" now))
      (recordinv_fresh h2 "admin@example.com" now)
  · rw [if_neg he]
    exact hinv

theorem reachable_inv (db : Store) (h : Reachable db) : StoreInv db := by
  induction h with
  | init => intro u r hf; cases hf
  | register db hashFn now code inputs out _ heq ih =>
    exact register_inv hashFn db now code inputs out ih heq
  | auth db cpw now username password code attempts out _ heq ih =>
    exact auth_inv cpw db now username password code attempts out ih heq
  | reset db hashFn now username code userCode pwInputs out _ heq ih =>
    exact reset_inv hashFn db now username code userCode pwInputs out ih heq
  | demo db h1 h2 now _ ih =>
    exact demo_inv h1 h2 now db ih

/-! ### Failure-sequence lemmas -/

theorem applyFailures_below (times : List Nat) (r : UserRecord)
    (hl : r.locked_until = none)
    (hb : r.failed_attempts + times.length ≤ 4) :
    (applyFailures r times).locked_until = none ∧
      (applyFailures r times).failed_attempts =
        r.failed_attempts + times.length := by
  induction times generalizing r with
  | nil => exact ⟨hl, rfl⟩
  | cons now rest ih =>
    have hlen : r.failed_attempts + rest.length + 1 ≤ 4 := by
      simp only [List.length_cons] at hb
      omega
    have hlt : ¬ max_failed_attempts ≤ r.failed_attempts + 1 := by
      intro hh
      have h5 : 5 ≤ r.failed_attempts + 1 := hh
      omega
    have hstep : record_failure r now =
        { r with failed_attempts := r.failed_attempts + 1 } := by
      simp only [record_failure]
      rw [if_neg hlt]
    have hrec := ih { r with failed_attempts := r.failed_attempts + 1 }
      hl (by simp only []; omega)
    have hunfold : applyFailures r (now :: rest) =
        applyFailures (record_failure r now) rest := rfl
    rw [hunfold, hstep]
    refine ⟨hrec.1, ?_⟩
    rw [hrec.2]
    simp only [List.length_cons]
    omega

/-- C1: a failed password check increments `failed_attempts`; starting from a
fresh record, any sequence of at most 4 recorded failures never sets
`locked_until` and leaves the counter at the number of failures, while the
5th failure sets `locked_until` to the failure time plus 15 minutes and
leaves `failed_attempts` at 5. -/
theorem C1_record_failure_threshold :
    (∀ (r : UserRecord) (now : Nat),
      (record_failure r now).failed_attempts = r.failed_attempts + 1) ∧
    (∀ (r : UserRecord) (times : List Nat),
      r.failed_attempts = 0 → r.locked_until = none → times.length ≤ 4 →
      (applyFailures r times).locked_until = none ∧
        (applyFailures r times).failed_attempts = times.length) ∧
    (∀ (r : UserRecord) (times : List Nat) (now5 : Nat),
      r.failed_attempts = 0 → r.locked_until = none → times.length = 4 →
      (applyFailures r (times ++ [now5])).locked_until = some (now5 + 15) ∧
        (applyFailures r (times ++ [now5])).failed_attempts = 5) := by
  refine ⟨?_, ?_, ?_⟩
  · intro r now
    simp only [record_failure]
    by_cases h5 : max_failed_attempts ≤ r.failed_attempts + 1
    · rw [if_pos h5]
    · rw [if_neg h5]
  · intro r times h0 hl hlen
    have hb := applyFailures_below times r hl (by omega)
    refine ⟨hb.1, ?_⟩
    rw [hb.2, h0]
    omega
  · intro r times now5 h0 hl hlen
    have hb := applyFailures_below times r hl (by omega)
    have hsplit : applyFailures r (times ++ [now5]) =
        record_failure (applyFailures r times) now5 := by
      simp [applyFailures, List.foldl_append]
    have hfa : (applyFailures r times).failed_attempts = 4 := by
      have h2 := hb.2
      omega
    rw [hsplit]
    simp only [record_failure]
    rw [hfa]
    rw [if_pos (by decide : max_failed_attempts ≤ 4 + 1)]
    exact ⟨rfl, rfl⟩

/-- Witness for C1 at concrete records and failure times. -/
theorem C1_record_failure_threshold_witness :
    (record_failure ⟨"h", "e", 2, none, 0⟩ 3).failed_attempts = 3 ∧
    ((applyFailures ⟨"h", "e", 0, none, 0⟩ [1, 2, 3]).locked_until = none ∧
      (applyFailures ⟨"h", "e", 0, none, 0⟩ [1, 2, 3]).failed_attempts = 3) ∧
    ((applyFailures ⟨"h", "e", 0, none, 0⟩ ([1, 2, 3, 4] ++ [9])).locked_until
        = some 24 ∧
      (applyFailures ⟨"h", "e", 0, none, 0⟩
          ([1, 2, 3, 4] ++ [9])).failed_attempts = 5) :=
  ⟨C1_record_failure_threshold.1 ⟨"h", "e", 2, none, 0⟩ 3,
   C1_record_failure_threshold.2.1 ⟨"h", "e", 0, none, 0⟩ [1, 2, 3] rfl rfl
     (by decide),
   C1_record_failure_threshold.2.2 ⟨"h", "e", 0, none, 0⟩ [1, 2, 3, 4] 9 rfl
     rfl (by decide)⟩

/-- C4: for a registered record, the lockout check returns true iff
`locked_until` is set and the current time is strictly before it; a set but
elapsed `locked_until` is reset (counter zeroed, lock cleared) and the check
returns false. -/
theorem C4_lockout_check (db : Store) (u : String) (now : Nat)
    (r : UserRecord) (hf : find db u = some r) :
    ((check_account_lockout db u now).1 = true ↔
      ∃ t, r.locked_until = some t ∧ now < t) ∧
    (∀ t, r.locked_until = some t → ¬ now < t →
      check_account_lockout db u now =
        (false,
          setUser db u { r with failed_attempts := 0, locked_until := none })) := by
  constructor
  · constructor
    · intro htrue
      cases hl : r.locked_until with
      | none => rw [check_unlocked db u now r hf hl] at htrue; cases htrue
      | some t =>
        by_cases ht : now < t
        · exact ⟨t, rfl, ht⟩
        · rw [check_expired db u now t r hf hl ht] at htrue; cases htrue
    · intro ⟨t, hl, ht⟩
      rw [check_locked db u now t r hf hl ht]
  · intro t hl ht
    exact check_expired db u now t r hf hl ht

/-- Witness for C4: a record locked until time 15 is locked at time 3, and
the same record is cleared by a check at time 20. -/
theorem C4_lockout_check_witness :
    (check_account_lockout
        [("alice01", ⟨"h", "a@x.com", 5, some 15, 0⟩)] "alice01" 3).1 = true ∧
    check_account_lockout
        [("alice01", ⟨"h", "a@x.com", 5, some 15, 0⟩)] "alice01" 20 =
      (false, [("alice01", ⟨"h", "a@x.com", 0, none, 0⟩)]) :=
  ⟨(C4_lockout_check
      [("alice01", ⟨"h", "a@x.com", 5, some 15, 0⟩)] "alice01" 3
      ⟨"h", "a@x.com", 5, some 15, 0⟩ rfl).1.mpr ⟨15, rfl, by decide⟩,
   (C4_lockout_check
      [("alice01", ⟨"h", "a@x.com", 5, some 15, 0⟩)] "alice01" 20
      ⟨"h", "a@x.com", 5, some 15, 0⟩ rfl).2 15 rfl (by decide)⟩

/-- C5: validation accepts exactly the passwords of length at least 8 with
an uppercase letter, a lowercase letter and a digit; a password violating
exactly one of the four rules is reported with exactly that violation. -/
theorem C5_validate_spec :
    (∀ p, validate p = PasswordValidation.Ok ↔
      (8 ≤ p.length ∧ hasUppercase p = true ∧ hasLowercase p = true ∧
        hasDigit p = true)) ∧
    (∀ p, p.length < 8 → hasUppercase p = true → hasLowercase p = true →
      hasDigit p = true → validate p = PasswordValidation.TooShort) ∧
    (∀ p, 8 ≤ p.length → hasUppercase p = false → hasLowercase p = true →
      hasDigit p = true → validate p = PasswordValidation.MissingUppercase) ∧
    (∀ p, 8 ≤ p.length → hasUppercase p = true → hasLowercase p = false →
      hasDigit p = true → validate p = PasswordValidation.MissingLowercase) ∧
    (∀ p, 8 ≤ p.length → hasUppercase p = true → hasLowercase p = true →
      hasDigit p = false → validate p = PasswordValidation.MissingDigit) := by
  refine ⟨?_, ?_, ?_, ?_, ?_⟩
  · intro p
    constructor
    · intro hok
      by_cases hlen : p.length < 8
      · unfold validate at hok
        rw [if_pos hlen] at hok
        cases hok
      · cases hu : hasUppercase p with
        | false =>
          unfold validate at hok
          rw [if_neg hlen, hu] at hok
          simp at hok
        | true =>
          cases hlo : hasLowercase p with
          | false =>
            unfold validate at hok
            rw [if_neg hlen, hu, hlo] at hok
            simp at hok
          | true =>
            cases hd : hasDigit p with
            | false =>
              unfold validate at hok
              rw [if_neg hlen, hu, hlo, hd] at hok
              simp at hok
            | true => exact ⟨by omega, rfl, rfl, rfl⟩
    · intro ⟨hlen, hu, hlo, hd⟩
      have hn : ¬ p.length < 8 := by omega
      simp [validate, hn, hu, hlo, hd]
  · intro p h1 _ _ _
    simp [validate, h1]
  · intro p h1 h2 _ _
    have hn : ¬ p.length < 8 := by omega
    simp [validate, hn, h2]
  · intro p h1 h2 h3 _
    have hn : ¬ p.length < 8 := by omega
    simp [validate, hn, h2, h3]
  · intro p h1 h2 h3 h4
    have hn : ¬ p.length < 8 := by omega
    simp [validate, hn, h2, h3, h4]

/-- Witness for C5 at one password per outcome. -/
theorem C5_validate_spec_witness :
    validate "Passw0rd" = PasswordValidation.Ok ∧
    validate "Pw0rd1" = PasswordValidation.TooShort ∧
    validate "password1" = PasswordValidation.MissingUppercase ∧
    validate "PASSWORD1" = PasswordValidation.MissingLowercase ∧
    validate "Passwordx" = PasswordValidation.MissingDigit :=
  ⟨(C5_validate_spec.1 "Passw0rd").mpr
      ⟨by decide, by decide, by decide, by decide⟩,
   C5_validate_spec.2.1 "Pw0rd1" (by decide) (by decide) (by decide)
     (by decide),
   C5_validate_spec.2.2.1 "password1" (by decide) (by decide) (by decide)
     (by decide),
   C5_validate_spec.2.2.2.1 "PASSWORD1" (by decide) (by decide) (by decide)
     (by decide),
   C5_validate_spec.2.2.2.2 "Passwordx" (by decide) (by decide) (by decide)
     (by decide)⟩

/-- C6: an unknown username is rejected with the store untouched and no code
sent; a locked, unexpired account is rejected with the store untouched and no
code sent, for every password-checking function and every supplied password
(so the password is never consulted and `failed_attempts` is not mutated). -/
theorem C6_reject_unknown_and_locked :
    (∀ (cpw : String → String → Bool) (db : Store) (now : Nat)
        (u pw code : String) (att : List String),
      find db u = none →
      authenticate cpw db now u pw code att = some ⟨false, db, []⟩) ∧
    (∀ (cpw : String → String → Bool) (db : Store) (now : Nat)
        (u pw code : String) (att : List String) (r : UserRecord) (t : Nat),
      find db u = some r → r.locked_until = some t → now < t →
      authenticate cpw db now u pw code att = some ⟨false, db, []⟩) :=
  ⟨fun cpw db now u pw code att h =>
      auth_unknown cpw db now u pw code att h,
   fun cpw db now u pw code att r t hf hl ht =>
      auth_locked cpw db now u pw code att r t hf hl ht⟩

/-- Witness for C6: an empty store rejects `ghost`, and a store with
`alice01` locked until 15 rejects her at time 3 unchanged. -/
theorem C6_reject_unknown_and_locked_witness :
    authenticate (fun _ _ => true) [] 0 "ghost" "pw" "123456" [] =
      some ⟨false, [], []⟩ ∧
    authenticate (fun _ _ => true)
        [("alice01", ⟨"h", "a@x.com", 5, some 15, 0⟩)] 3 "alice01" "guess"
        "123456" [] =
      some ⟨false, [("alice01", ⟨"h", "a@x.com", 5, some 15, 0⟩)], []⟩ :=
  ⟨C6_reject_unknown_and_locked.1 (fun _ _ => true) [] 0 "ghost" "pw"
      "123456" [] rfl,
   C6_reject_unknown_and_locked.2 (fun _ _ => true)
      [("alice01", ⟨"h", "a@x.com", 5, some 15, 0⟩)] 3 "alice01" "guess"
      "123456" [] ⟨"h", "a@x.com", 5, some 15, 0⟩ 15 rfl rfl (by decide)⟩

/-- C7: after a correct password the persisted record has `failed_attempts`
zeroed no matter how the second-factor phase goes; three wrong codes then
fail the flow, with the stored record still at `failed_attempts = 0` and
otherwise unchanged. -/
theorem C7_twofactor_frame (cpw : String → String → Bool) (db : Store)
    (now : Nat) (u pw code : String) (r : UserRecord)
    (hf : find db u = some r) (hl : r.locked_until = none)
    (hp : cpw pw r.password_hash = true) :
    (∀ att out, authenticate cpw db now u pw code att = some out →
      out.db = setUser db u { r with failed_attempts := 0 }) ∧
    (∀ a b c rest, ¬ a = code → ¬ b = code → ¬ c = code →
      authenticate cpw db now u pw code (a :: b :: c :: rest) =
        some ⟨false, setUser db u { r with failed_attempts := 0 },
          [r.email]⟩) ∧
    find (setUser db u { r with failed_attempts := 0 }) u =
      some { r with failed_attempts := 0 } :=
  ⟨fun att out heq =>
      auth_goodpw_db cpw db now u pw code att out r hf hl hp heq,
   fun a b c rest ha hb hc =>
      auth_goodpw_allwrong cpw db now u pw code a b c rest r hf hl hp ha hb hc,
   find_setUser_self db u _⟩

/-- Witness for C7: `alice01` with two prior failures gives the right
password, then three wrong 2FA codes; the flow fails with the counter
persisted at 0. -/
theorem C7_twofactor_frame_witness :
    authenticate (fun p h => p == h)
        [("alice01", ⟨"H", "a@x.com", 2, none, 0⟩)] 0 "alice01" "H" "123456"
        ["1", "2", "3"] =
      some ⟨false, [("alice01", ⟨"H", "a@x.com", 0, none, 0⟩)],
        ["a@x.com"]⟩ :=
  (C7_twofactor_frame (fun p h => p == h)
      [("alice01", ⟨"H", "a@x.com", 2, none, 0⟩)] 0 "alice01" "H" "123456"
      ⟨"H", "a@x.com", 2, none, 0⟩ rfl rfl rfl).2.1 "1" "2" "3" []
    (by decide) (by decide) (by decide)

/-- C8: when registration's e-mail verification exhausts its 3 code attempts
without a match, the flow fails and the credential store is returned exactly
as it was — no record has been created or persisted. -/
theorem C8_register_abort_unchanged (hashFn : String → String) (db : Store)
    (now : Nat) (code username email a b c : String) (rest : List String)
    (hu : 4 ≤ username.length)
    (huc : username.data.all validUsernameChar = true)
    (hfind : find db username = none) (he : validEmail email = true)
    (ha : ¬ a = code) (hb : ¬ b = code) (hc : ¬ c = code) :
    register_user hashFn db now code
        (username :: email :: a :: b :: c :: rest) =
      some ⟨false, db, [email]⟩ :=
  register_verifyfail hashFn db now code username email a b c rest hu huc
    hfind he ha hb hc

/-- Witness for C8: registering `alice01` with three wrong codes leaves the
empty store empty. -/
theorem C8_register_abort_unchanged_witness :
    register_user (fun p => p) [] 0 "123456"
        ["alice01", "a@x.com", "0", "1", "2"] =
      some ⟨false, [], ["a@x.com"]⟩ :=
  C8_register_abort_unchanged (fun p => p) [] 0 "123456" "alice01" "a@x.com"
    "0" "1" "2" [] (by decide) (by decide) rfl (by decide) (by decide)
    (by decide) (by decide)

/-- C9: password reset rejects an unknown username, rejects a locked account
before any verification code is sent (`sent = []`), and on a matching code
with an accepted new password replaces the hash, zeroes `failed_attempts`
and clears `locked_until` — also when the previous lock had merely
expired. -/
theorem C9_reset_flow (hashFn : String → String) (db : Store) (now : Nat)
    (u code userCode : String) (pwInputs : List String) :
    (find db u = none →
      reset_password hashFn db now u code userCode pwInputs =
        some ⟨false, db, []⟩) ∧
    (∀ r t, find db u = some r → r.locked_until = some t → now < t →
      reset_password hashFn db now u code userCode pwInputs =
        some ⟨false, db, []⟩) ∧
    (∀ r p, find db u = some r → r.locked_until = none → userCode = code →
      passwordLoop pwInputs = some p →
      reset_password hashFn db now u code userCode pwInputs =
        some ⟨true,
          setUser db u
            { r with
                password_hash := hashFn p,
                failed_attempts := 0,
                locked_until := none }, [r.email]⟩) ∧
    (∀ r p t, find db u = some r → r.locked_until = some t → ¬ now < t →
      userCode = code → passwordLoop pwInputs = some p →
      reset_password hashFn db now u code userCode pwInputs =
        some ⟨true,
          setUser db u
            { r with
                password_hash := hashFn p,
                failed_attempts := 0,
                locked_until := none }, [r.email]⟩) :=
  ⟨fun h => reset_unknown hashFn db now u code userCode pwInputs h,
   fun r t hf hl ht => reset_locked hashFn db now u code userCode pwInputs
     r t hf hl ht,
   fun r p hf hl hc hp => reset_success hashFn db now u code userCode
     pwInputs r p hf hl hc hp,
   fun r p t hf hl ht hc hp => reset_success_expired hashFn db now u code
     userCode pwInputs r p t hf hl ht hc hp⟩

/-- Witness for C9: unknown user, locked account (nothing sent), successful
reset of an unlocked account, and successful reset right after lock
expiry. -/
theorem C9_reset_flow_witness :
    reset_password (fun p => p) [] 0 "ghost" "123456" "123456"
        ["Newpass1", "Newpass1"] = some ⟨false, [], []⟩ ∧
    reset_password (fun p => p)
        [("alice01", ⟨"H", "a@x.com", 5, some 15, 0⟩)] 3 "alice01" "123456"
        "123456" ["Newpass1", "Newpass1"] =
      some ⟨false, [("alice01", ⟨"H", "a@x.com", 5, some 15, 0⟩)], []⟩ ∧
    reset_password (fun p => p)
        [("alice01", ⟨"H", "a@x.com", 2, none, 0⟩)] 0 "alice01" "123456"
        "123456" ["Newpass1", "Newpass1"] =
      some ⟨true, [("alice01", ⟨"Newpass1", "a@x.com", 0, none, 0⟩)],
        ["a@x.com"]⟩ ∧
    reset_password (fun p => p)
        [("alice01", ⟨"H", "a@x.com", 5, some 15, 0⟩)] 20 "alice01" "123456"
        "123456" ["Newpass1", "Newpass1"] =
      some ⟨true, [("alice01", ⟨"Newpass1", "a@x.com", 0, none, 0⟩)],
        ["a@x.com"]⟩ :=
  ⟨(C9_reset_flow (fun p => p) [] 0 "ghost" "123456" "123456"
      ["Newpass1", "Newpass1"]).1 rfl,
   (C9_reset_flow (fun p => p)
      [("alice01", ⟨"H", "a@x.com", 5, some 15, 0⟩)] 3 "alice01" "123456"
      "123456" ["Newpass1", "Newpass1"]).2.1
      ⟨"H", "a@x.com", 5, some 15, 0⟩ 15 rfl rfl (by decide),
   (C9_reset_flow (fun p => p)
      [("alice01", ⟨"H", "a@x.com", 2, none, 0⟩)] 0 "alice01" "123456"
      "123456" ["Newpass1", "Newpass1"]).2.2.1
      ⟨"H", "a@x.com", 2, none, 0⟩ "Newpass1" rfl rfl rfl (by decide),
   (C9_reset_flow (fun p => p)
      [("alice01", ⟨"H", "a@x.com", 5, some 15, 0⟩)] 20 "alice01" "123456"
      "123456" ["Newpass1", "Newpass1"]).2.2.2
      ⟨"H", "a@x.com", 5, some 15, 0⟩ "Newpass1" 15 rfl rfl (by decide) rfl
      (by decide)⟩

/-- C10: the lockout check on a username absent from the store returns
false and leaves the store unchanged. -/
theorem C10_unknown_not_locked (db : Store) (u : String) (now : Nat)
    (h : find db u = none) :
    check_account_lockout db u now = (false, db) :=
  check_unknown db u now h

/-- Witness for C10 on an empty store and on a store without the queried
name. -/
theorem C10_unknown_not_locked_witness :
    check_account_lockout [] "ghost" 5 = (false, []) ∧
    check_account_lockout [("alice01", ⟨"H", "a@x.com", 0, none, 0⟩)]
        "bob_1" 7 =
      (false, [("alice01", ⟨"H", "a@x.com", 0, none, 0⟩)]) :=
  ⟨C10_unknown_not_locked [] "ghost" 5 rfl,
   C10_unknown_not_locked [("alice01", ⟨"H", "a@x.com", 0, none, 0⟩)]
     "bob_1" 7 (by decide)⟩

/-- Counterexample to C2: in the password-reset flow one single mismatched
verification code fails the whole flow — the correct code and a valid new
password are still waiting unread in the input stream, yet the flow has
already returned failure, so reset does not allow 3 attempts. -/
theorem C2_reset_single_attempt_cex :
    reset_password (fun p => p)
        [("alice01", ⟨"H", "a@x.com", 0, none, 0⟩)] 0 "alice01" "123456"
        "999999" ["123456", "Newpass1", "Newpass1"] =
      some ⟨false, [("alice01", ⟨"H", "a@x.com", 0, none, 0⟩)],
        ["a@x.com"]⟩ := by
  decide

/-- C2 (amended): registration and authentication allow up to 3 attempts to
match the issued verification code — the first match succeeds and only after
all 3 attempts fail does the enclosing flow fail — while password reset
allows exactly one attempt: a single mismatch fails the flow, a single match
lets it proceed. -/
theorem C2_attempt_budgets_amended :
    (∀ (hashFn : String → String) (db : Store) (now : Nat)
        (code username email a b c : String) (rest : List String),
      4 ≤ username.length → username.data.all validUsernameChar = true →
      find db username = none → validEmail email = true →
      ¬ a = code → ¬ b = code → ¬ c = code →
      register_user hashFn db now code
          (username :: email :: a :: b :: c :: rest) =
        some ⟨false, db, [email]⟩) ∧
    (∀ (hashFn : String → String) (db : Store) (now : Nat)
        (code username email p : String) (pre rest2 : List String),
      4 ≤ username.length → username.data.all validUsernameChar = true →
      find db username = none → validEmail email = true →
      pre.length ≤ 2 → (∀ x ∈ pre, ¬ x = code) →
      passwordLoop rest2 = some p →
      register_user hashFn db now code
          (username :: email :: (pre ++ code :: rest2)) =
        some ⟨true, setUser db username ⟨hashFn p, email, 0, none, now⟩,
          [email]⟩) ∧
    (∀ (cpw : String → String → Bool) (db : Store) (now : Nat)
        (u pw code a b c : String) (rest : List String) (r : UserRecord),
      find db u = some r → r.locked_until = none →
      cpw pw r.password_hash = true →
      ¬ a = code → ¬ b = code → ¬ c = code →
      authenticate cpw db now u pw code (a :: b :: c :: rest) =
        some ⟨false, setUser db u { r with failed_attempts := 0 },
          [r.email]⟩) ∧
    (∀ (cpw : String → String → Bool) (db : Store) (now : Nat)
        (u pw code : String) (pre rest : List String) (r : UserRecord),
      find db u = some r → r.locked_until = none →
      cpw pw r.password_hash = true →
      pre.length ≤ 2 → (∀ x ∈ pre, ¬ x = code) →
      authenticate cpw db now u pw code (pre ++ code :: rest) =
        some ⟨true, setUser db u { r with failed_attempts := 0 },
          [r.email]⟩) ∧
    (∀ (hashFn : String → String) (db : Store) (now : Nat)
        (u code userCode : String) (pwInputs : List String) (r : UserRecord),
      find db u = some r → r.locked_until = none → ¬ userCode = code →
      reset_password hashFn db now u code userCode pwInputs =
        some ⟨false, db, [r.email]⟩) ∧
    (∀ (hashFn : String → String) (db : Store) (now : Nat)
        (u code userCode p : String) (pwInputs : List String)
        (r : UserRecord),
      find db u = some r → r.locked_until = none → userCode = code →
      passwordLoop pwInputs = some p →
      reset_password hashFn db now u code userCode pwInputs =
        some ⟨true,
          setUser db u
            { r with
                password_hash := hashFn p,
                failed_attempts := 0,
                locked_until := none }, [r.email]⟩) :=
  ⟨fun hashFn db now code username email a b c rest hu huc hfind he ha hb hc =>
      register_verifyfail hashFn db now code username email a b c rest hu
        huc hfind he ha hb hc,
   fun hashFn db now code username email p pre rest2 hu huc hfind he hlen
        hwrong hpw =>
      register_matched hashFn db now code username email p pre rest2 hu huc
        hfind he hlen hwrong hpw,
   fun cpw db now u pw code a b c rest r hf hl hp ha hb hc =>
      auth_goodpw_allwrong cpw db now u pw code a b c rest r hf hl hp ha
        hb hc,
   fun cpw db now u pw code pre rest r hf hl hp hlen hwrong =>
      auth_goodpw_match cpw db now u pw code pre rest r hf hl hp hlen hwrong,
   fun hashFn db now u code userCode pwInputs r hf hl hne =>
      reset_wrongcode hashFn db now u code userCode pwInputs r hf hl hne,
   fun hashFn db now u code userCode p pwInputs r hf hl hc hp =>
      reset_success hashFn db now u code userCode pwInputs r p hf hl hc hp⟩

/-- Witness for the amended C2: all six attempt-budget behaviours at
concrete inputs. -/
theorem C2_attempt_budgets_amended_witness :
    register_user (fun p => p) [] 0 "123456"
        ["alice01", "a@x.com", "7", "8", "9"] =
      some ⟨false, [], ["a@x.com"]⟩ ∧
    register_user (fun p => p) [] 0 "123456"
        ["alice01", "a@x.com", "9", "123456", "Passw0rd", "Passw0rd"] =
      some ⟨true, [("alice01", ⟨"Passw0rd", "a@x.com", 0, none, 0⟩)],
        ["a@x.com"]⟩ ∧
    authenticate (fun p h => p == h)
        [("alice01", ⟨"H", "a@x.com", 0, none, 0⟩)] 0 "alice01" "H" "123456"
        ["7", "8", "9"] =
      some ⟨false, [("alice01", ⟨"H", "a@x.com", 0, none, 0⟩)],
        ["a@x.com"]⟩ ∧
    authenticate (fun p h => p == h)
        [("alice01", ⟨"H", "a@x.com", 0, none, 0⟩)] 0 "alice01" "H" "123456"
        ["7", "8", "123456"] =
      some ⟨true, [("alice01", ⟨"H", "a@x.com", 0, none, 0⟩)],
        ["a@x.com"]⟩ ∧
    reset_password (fun p => p)
        [("alice01", ⟨"H", "a@x.com", 0, none, 0⟩)] 0 "alice01" "123456"
        "999999" ["Newpass1", "Newpass1"] =
      some ⟨false, [("alice01", ⟨"H", "a@x.com", 0, none, 0⟩)],
        ["a@x.com"]⟩ ∧
    reset_password (fun p => p)
        [("alice01", ⟨"H", "a@x.com", 0, none, 0⟩)] 0 "alice01" "123456"
        "123456" ["Newpass1", "Newpass1"] =
      some ⟨true, [("alice01", ⟨"Newpass1", "a@x.com", 0, none, 0⟩)],
        ["a@x.com"]⟩ :=
  ⟨C2_attempt_budgets_amended.1 (fun p => p) [] 0 "123456" "alice01"
      "a@x.com" "7" "8" "9" [] (by decide) (by decide) rfl (by decide)
      (by decide) (by decide) (by decide),
   C2_attempt_budgets_amended.2.1 (fun p => p) [] 0 "123456" "alice01"
      "a@x.com" "Passw0rd" ["9"] ["Passw0rd", "Passw0rd"] (by decide)
      (by decide) rfl (by decide) (by decide) (by decide) (by decide),
   C2_attempt_budgets_amended.2.2.1 (fun p h => p == h)
      [("alice01", ⟨"H", "a@x.com", 0, none, 0⟩)] 0 "alice01" "H" "123456"
      "7" "8" "9" [] ⟨"H", "a@x.com", 0, none, 0⟩ rfl rfl rfl (by decide)
      (by decide) (by decide),
   C2_attempt_budgets_amended.2.2.2.1 (fun p h => p == h)
      [("alice01", ⟨"H", "a@x.com", 0, none, 0⟩)] 0 "alice01" "H" "123456"
      ["7", "8"] [] ⟨"H", "a@x.com", 0, none, 0⟩ rfl rfl rfl (by decide)
      (by decide),
   C2_attempt_budgets_amended.2.2.2.2.1 (fun p => p)
      [("alice01", ⟨"H", "a@x.com", 0, none, 0⟩)] 0 "alice01" "123456"
      "999999" ["Newpass1", "Newpass1"] ⟨"H", "a@x.com", 0, none, 0⟩ rfl rfl
      (by decide),
   C2_attempt_budgets_amended.2.2.2.2.2 (fun p => p)
      [("alice01", ⟨"H", "a@x.com", 0, none, 0⟩)] 0 "alice01" "123456"
      "123456" "Newpass1" ["Newpass1", "Newpass1"]
      ⟨"H", "a@x.com", 0, none, 0⟩ rfl rfl rfl (by decide)⟩

/-- Counterexample to C3: the store reached by registering `alice01` and
then failing her password 5 times holds a record whose `failed_attempts` is
5 (nonzero) while `locked_until = some 15` is set and not yet expired (the
lockout check at time 0 still reports the account locked) — so a reachable
record has a nonzero counter while the lock is present and unexpired. -/
theorem C3_locked_counter_cex :
    Reachable [("alice01", ⟨"Passw0rd", "a@x.com", 5, some 15, 0⟩)] ∧
    find [("alice01", ⟨"Passw0rd", "a@x.com", 5, some 15, 0⟩)] "alice01" =
      some ⟨"Passw0rd", "a@x.com", 5, some 15, 0⟩ ∧
    (⟨"Passw0rd", "a@x.com", 5, some 15, 0⟩ : UserRecord).failed_attempts
      ≠ 0 ∧
    (check_account_lockout
        [("alice01", ⟨"Passw0rd", "a@x.com", 5, some 15, 0⟩)] "alice01"
        0).1 = true := by
  refine ⟨?_, by decide, by decide, by decide⟩
  have h1 : Reachable [("alice01", ⟨"Passw0rd", "a@x.com", 0, none, 0⟩)] :=
    Reachable.register [] (fun p => p) 0 "123456"
      ["alice01", "a@x.com", "123456", "Passw0rd", "Passw0rd"]
      ⟨true, [("alice01", ⟨"Passw0rd", "a@x.com", 0, none, 0⟩)],
        ["a@x.com"]⟩
      Reachable.init (by decide)
  have h2 : Reachable [("alice01", ⟨"Passw0rd", "a@x.com", 1, none, 0⟩)] :=
    Reachable.auth [("alice01", ⟨"Passw0rd", "a@x.com", 0, none, 0⟩)]
      (fun _ _ => false) 0 "alice01" "guess" "000000" []
      ⟨false, [("alice01", ⟨"Passw0rd", "a@x.com", 1, none, 0⟩)], []⟩
      h1 (by decide)
  have h3 : Reachable [("alice01", ⟨"Passw0rd", "a@x.com", 2, none, 0⟩)] :=
    Reachable.auth [("alice01", ⟨"Passw0rd", "a@x.com", 1, none, 0⟩)]
      (fun _ _ => false) 0 "alice01" "guess" "000000" []
      ⟨false, [("alice01", ⟨"Passw0rd", "a@x.com", 2, none, 0⟩)], []⟩
      h2 (by decide)
  have h4 : Reachable [("alice01", ⟨"Passw0rd", "a@x.com", 3, none, 0⟩)] :=
    Reachable.auth [("alice01", ⟨"Passw0rd", "a@x.com", 2, none, 0⟩)]
      (fun _ _ => false) 0 "alice01" "guess" "000000" []
      ⟨false, [("alice01", ⟨"Passw0rd", "a@x.com", 3, none, 0⟩)], []⟩
      h3 (by decide)
  have h5 : Reachable [("alice01", ⟨"Passw0rd", "a@x.com", 4, none, 0⟩)] :=
    Reachable.auth [("alice01", ⟨"Passw0rd", "a@x.com", 3, none, 0⟩)]
      (fun _ _ => false) 0 "alice01" "guess" "000000" []
      ⟨false, [("alice01", ⟨"Passw0rd", "a@x.com", 4, none, 0⟩)], []⟩
      h4 (by decide)
  exact Reachable.auth [("alice01", ⟨"Passw0rd", "a@x.com", 4, none, 0⟩)]
    (fun _ _ => false) 0 "alice01" "guess" "000000" []
    ⟨false, [("alice01", ⟨"Passw0rd", "a@x.com", 5, some 15, 0⟩)], []⟩
    h5 (by decide)

/-- C3 (amended): in every reachable store, a record with no lock set has
`failed_attempts` at most 4, a record with `locked_until` set has
`failed_attempts` exactly at the threshold 5 (nonzero, staying at 5 for the
lock's duration), and while the lock is unexpired an authentication attempt
returns the store unchanged — the counter is not incremented further until
lockout expiry. -/
theorem C3_lockout_invariant_amended (db : Store) (h : Reachable db)
    (u : String) (r : UserRecord) (hf : find db u = some r) :
    (r.locked_until = none → r.failed_attempts ≤ 4) ∧
    (∀ t, r.locked_until = some t → r.failed_attempts = 5) ∧
    (∀ (cpw : String → String → Bool) (now : Nat) (pw code : String)
        (att : List String) (t : Nat),
      r.locked_until = some t → now < t →
      authenticate cpw db now u pw code att = some ⟨false, db, []⟩) :=
  ⟨(reachable_inv db h u r hf).1, (reachable_inv db h u r hf).2,
   fun cpw now pw code att t hl ht =>
     auth_locked cpw db now u pw code att r t hf hl ht⟩

/-- Witness for the amended C3 on the store reached by one successful
registration. -/
theorem C3_lockout_invariant_amended_witness :
    (⟨"Passw0rd", "a@x.com", 0, none, 0⟩ : UserRecord).failed_attempts
      ≤ 4 :=
  (C3_lockout_invariant_amended
    [("alice01", ⟨"Passw0rd", "a@x.com", 0, none, 0⟩)]
    (Reachable.register [] (fun p => p) 0 "123456"
      ["alice01", "a@x.com", "123456", "Passw0rd", "Passw0rd"]
      ⟨true, [("alice01", ⟨"Passw0rd", "a@x.com", 0, none, 0⟩)],
        ["a@x.com"]⟩
      Reachable.init (by decide))
    "alice01" ⟨"Passw0rd", "a@x.com", 0, none, 0⟩ (by decide)).1 rfl
